import Mathlib

/-!
Shallow embedding of the OCI machine-driver sources (`oci.go`, the Client
file) and proofs about the claims of its specification.

Provider calls (LaunchInstance, GetInstance, InstanceAction, ListImages,
ListAvailabilityDomains) are modelled as oracle data passed in explicitly:
a `ListImages` conversation is the list of page responses the server
returns in order, the other calls are functions from their arguments to
their results. Go `(T, error)` pairs are modelled as `T × Option String`
(a `none` error is Go's `nil`), and pointer-typed fields as `Option`.
-/

namespace OCIDriver

/-- Constants of `oci.go`. -/
def defaultNodeNamePfx : String := "oci-node-driver-"

def defaultSSHPort : Nat := 22

def defaultSSHUser : String := "opc"

def defaultImage : String := "Oracle-Linux-7.7"

def defaultDockerPort : Nat := 2376

/-! Provider lifecycle states: in the SDK `core.InstanceLifecycleStateEnum`
is a string type, so an instance's lifecycle state is modelled as a
`String` and the named constants as their string values. -/

def instanceLifecycleStateProvisioning : String := "PROVISIONING"

def instanceLifecycleStateRunning : String := "RUNNING"

def instanceLifecycleStateStarting : String := "STARTING"

def instanceLifecycleStateStopping : String := "STOPPING"

def instanceLifecycleStateStopped : String := "STOPPED"

def instanceLifecycleStateCreatingImage : String := "CREATING_IMAGE"

def instanceLifecycleStateTerminating : String := "TERMINATING"

def instanceLifecycleStateTerminated : String := "TERMINATED"

/-- External machine states (`libmachine/state.State`). -/
inductive MachineState where
  | RNone
  | Running
  | Paused
  | Saved
  | Stopped
  | Stopping
  | Starting
  | Err
  deriving DecidableEq, Repr

/-- Driver configuration fields used by the embedded operations
(`Driver` struct of `oci.go`, restricted to the fields the claims read). -/
structure Driver where
  machineName : String
  availabilityDomain : String
  nodeCompartmentID : String
  shape : String
  image : String
  subnetID : String
  isRover : Bool
  sshUser : String
  sshPort : Nat
  dockerPort : Nat
  deriving DecidableEq, Repr

/-- A provider compute instance, restricted to the fields the driver reads
(`core.Instance`): the id (a pointer in the SDK, hence `Option`) and the
lifecycle state string. -/
structure Instance where
  id : Option String := none
  lifecycleState : String := ""
  deriving DecidableEq, Repr

/-- Lifecycle-state mapping of `Driver.GetState` (the `switch` on
`instance.LifecycleState` in `oci.go`, lines 329-341). -/
def mapLifecycleState (s : String) : MachineState :=
  if s = instanceLifecycleStateRunning then .Running
  else if s = instanceLifecycleStateStopped ∨ s = instanceLifecycleStateTerminated then .Stopped
  else if s = instanceLifecycleStateStopping ∨ s = instanceLifecycleStateTerminating then .Stopping
  else if s = instanceLifecycleStateStarting ∨ s = instanceLifecycleStateProvisioning
          ∨ s = instanceLifecycleStateCreatingImage then .Starting
  else .RNone

/-- Embedding of `Driver.GetState`: construct the client (its failure
modelled by `initErr`), read the instance, and map its lifecycle state. -/
def GetState (initErr : Option String) (read : Except String Instance) :
    Except String MachineState :=
  match initErr with
  | some e => .error e
  | none =>
    match read with
    | .error e => .error e
    | .ok inst => .ok (mapLifecycleState inst.lifecycleState)

/-- Model of Go `strings.ToLower` (per-character lowercasing; the sources
only handle ASCII names, for which this coincides with Go's Unicode
mapping). -/
def goToLower (s : String) : String := ⟨s.data.map Char.toLower⟩

/-- Model of Go `strings.ToUpper` (per-character uppercasing, ASCII). -/
def goToUpper (s : String) : String := ⟨s.data.map Char.toUpper⟩

/-- Model of Go `strings.EqualFold` (case-insensitive string equality;
the sources only compare ASCII image names, for which simple case folding
coincides with lowercasing both sides). -/
def goEqualFold (a b : String) : Bool := goToLower a == goToLower b

/-- Character-list substring check: does `needle` occur contiguously
inside `haystack`? -/
def charsContain (needle : List Char) : List Char → Bool
  | [] => needle.isPrefixOf []
  | c :: rest => needle.isPrefixOf (c :: rest) || charsContain needle rest

/-- Model of Go `strings.Contains s substr`: `substr` occurs inside `s`. -/
def goContains (s substr : String) : Bool := charsContain substr.toList s.toList

/-- Availability-domain resolution loop of `createReqForOCi`
(lines 143-148): the `availabilityDomain` variable is MUTATED in place on
each match, and each list entry is tested against the uppercase of the
current value of that variable, not of the original request. -/
def resolveAvailabilityDomain (availabilityDomain : String) (ads : List String) : String :=
  ads.foldl
    (fun current adName => if goContains adName (goToUpper current) then adName else current)
    availabilityDomain

/-- A provider image record (`core.Image`, restricted to the fields
`getImageID` reads, with the creation timestamp as a number). -/
structure Image where
  displayName : String
  id : String
  timeCreated : Nat
  deriving DecidableEq, Repr

/-- One `ListImages` response: a transport/HTTP failure or a page of
items. The `OpcNextPage` token is modelled positionally: a response has a
next-page token exactly when it is not the last element of the response
list handed to `getImageID`. -/
abbrev Page := Except String (List Image)

/-- Inner per-page scan of `getImageID` (lines 383-388): first item whose
display name matches case-insensitively wins. -/
def findImage (nodeImageName : String) : List Image → Option String
  | [] => none
  | image :: rest =>
    if goEqualFold image.displayName nodeImageName then some image.id
    else findImage nodeImageName rest

/-- Error message of `getImageID` when no page contains a match. -/
def notFoundMsg (nodeImageName : String) : String :=
  "could not retrieve image id for an image named " ++ nodeImageName

/-- Error message of `getImageID` on empty input. -/
def emptyInputMsg : String :=
  "cannot retrieve image ID without a compartment and image name"

/-- Pagination loop of `getImageID` (lines 356-393). Returns the result
together with the number of `ListImages` requests issued; the loop stops
on a transport error, on a match, or when the current response carries no
next-page token (i.e. is the last response). -/
def getImageIDLoop (nodeImageName : String) :
    List Page → Except String String × Nat
  | [] => (.error (notFoundMsg nodeImageName), 0)
  | .error e :: _ => (.error e, 1)
  | [.ok items] =>
    match findImage nodeImageName items with
    | some id => (.ok id, 1)
    | none => (.error (notFoundMsg nodeImageName), 1)
  | .ok items :: next :: more =>
    match findImage nodeImageName items with
    | some id => (.ok id, 1)
    | none =>
      let r := getImageIDLoop nodeImageName (next :: more)
      (r.fst, r.snd + 1)

/-- Embedding of `Client.getImageID` (lines 348-396): validate input,
then run the pagination loop over the provider's response sequence. -/
def getImageID (compartmentID nodeImageName : String) (pages : List Page) :
    Except String String × Nat :=
  if nodeImageName = "" ∨ compartmentID = "" then (.error emptyInputMsg, 0)
  else getImageIDLoop nodeImageName pages

/-- Launch request model (`core.LaunchInstanceRequest`, restricted to the
fields the sources set; pointer fields are `Option`, and the Go zero
value of the request type is the record with every field `none`).
The base64 cloud-init `user_data` metadata entry is elided: no claim reads
it and it is a constant of the configuration. -/
structure LaunchInstanceRequest where
  availabilityDomain : Option String := none
  compartmentId : Option String := none
  shape : Option String := none
  subnetId : Option String := none
  assignPublicIp : Option Bool := none
  faultDomain : Option String := none
  displayName : Option String := none
  sshAuthorizedKeys : Option String := none
  imageId : Option String := none
  bootVolumeSizeInGBs : Option Nat := none
  isMonitoringDisabled : Option Bool := none
  deriving DecidableEq, Repr

/-- Provider responses consumed by `Client.CreateInstance`:
`adsItems` is the `ListAvailabilityDomains` result (the items' names),
`pages` the `ListImages` response sequence, `launch` maps a submitted
launch request to the created instance's id or an error, and `poll` is the
retry-polled `GetInstance` on the created id, whose success value is the
final instance's id. -/
structure Env where
  adsItems : Except String (List String)
  pages : List Page
  launch : LaunchInstanceRequest → Except String String
  poll : String → Except String String

/-- Embedding of `Client.createReqForOCi` (lines 133-174). The Go
function's result type is `(error, core.LaunchInstanceRequest)` in that
order; note that BOTH failure branches return a nil error (`none`),
dropping the error they just tested. -/
def createReqForOCi (env : Env) (displayName availabilityDomain compartmentID nodeShape
    nodeImageName nodeSubnetID authorizedKeys : String) :
    Option String × LaunchInstanceRequest :=
  match env.adsItems with
  | .error _ => (none, {})
  | .ok ads =>
    let availabilityDomain := resolveAvailabilityDomain availabilityDomain ads
    match (getImageID compartmentID nodeImageName env.pages).fst with
    | .error _ => (none, {})
    | .ok imageID =>
      (none,
        { availabilityDomain := some availabilityDomain,
          compartmentId := some compartmentID,
          shape := some nodeShape,
          subnetId := some nodeSubnetID,
          displayName := some displayName,
          sshAuthorizedKeys := some authorizedKeys,
          imageId := some imageID })

/-- Embedding of `Client.createReqForRover` (lines 176-209); as in
`createReqForOCi`, the failure branch returns a nil error. -/
def createReqForRover (env : Env) (displayName compartmentID nodeShape
    nodeImageName nodeSubnetID authorizedKeys : String) :
    Option String × LaunchInstanceRequest :=
  match (getImageID compartmentID nodeImageName env.pages).fst with
  | .error _ => (none, {})
  | .ok imageID =>
    (none,
      { availabilityDomain := some "OREI-1-AD-1",
        compartmentId := some compartmentID,
        shape := some nodeShape,
        subnetId := some nodeSubnetID,
        assignPublicIp := some true,
        faultDomain := some "FAULT-DOMAIN-1",
        displayName := some displayName,
        sshAuthorizedKeys := some authorizedKeys,
        imageId := some imageID,
        bootVolumeSizeInGBs := some 50,
        isMonitoringDisabled := some true })

/-- Embedding of `Client.CreateInstance` (lines 84-131). Besides the Go
result pair `(string, error)` it returns the list of launch requests that
were submitted to the compute client, so that theorems can talk about
whether `LaunchInstance` was called. The polling branch mirrors line 127
of the source, which on a poll failure returns `err` — the variable
holding the (nil) `LaunchInstance` error — and not `pollError`. -/
def CreateInstance (env : Env) (d : Driver) (authorizedKeys : String) :
    (String × Option String) × List LaunchInstanceRequest :=
  let displayName := defaultNodeNamePfx ++ d.machineName
  let reqResult :=
    if d.isRover then
      createReqForRover env displayName d.nodeCompartmentID d.shape d.image
        d.subnetID authorizedKeys
    else
      createReqForOCi env displayName d.availabilityDomain d.nodeCompartmentID
        d.shape d.image d.subnetID authorizedKeys
  match reqResult with
  | (some e, _) => (("", some e), [])
  | (none, request) =>
    match env.launch request with
    | .error e => (("", some e), [request])
    | .ok createdId =>
      match env.poll createdId with
      | .error _ => (("", none), [request])
      | .ok finalId => ((finalId, none), [request])

/-- Stop/Start oracles for `Client.RestartInstance`: the result of
`Client.StopInstance` and `Client.StartInstance` on a given instance id
(`none` is a nil error). -/
structure ActionEnv where
  stopInstance : String → Option String
  startInstance : String → Option String

/-- A call issued to the provider by a lifecycle operation. -/
inductive ProviderCall where
  | stop (id : String)
  | start (id : String)
  deriving DecidableEq, Repr

/-- Embedding of `Client.RestartInstance` (lines 287-293), returning the
Go error together with the sequence of provider calls issued. -/
def RestartInstance (env : ActionEnv) (id : String) :
    Option String × List ProviderCall :=
  match env.stopInstance id with
  | some e => (some e, [.stop id])
  | none => (env.startInstance id, [.stop id, .start id])

/-- Embedding of `Driver.PreCreateCheck` (lines 352-376): rover mode
returns immediately; otherwise the client is constructed (failure modelled
by `initErr`) and the BUILT-IN default image name is resolved in the node
compartment — the configured `d.image` is not consulted. -/
def PreCreateCheck (d : Driver) (initErr : Option String) (pages : List Page) :
    Option String :=
  if d.isRover then none
  else
    match initErr with
    | some e => some e
    | none =>
      match (getImageID d.nodeCompartmentID defaultImage pages).fst with
      | .error e => some e
      | .ok image =>
        if image.length = 0 then some "could not retrieve node image ID from OCI"
        else none

/-- Embedding of `Driver.GetSSHPort` (lines 287-291): always the constant
default port, regardless of the configured driver fields. -/
def GetSSHPort (_d : Driver) : Nat × Option String := (defaultSSHPort, none)

/-- Embedding of `Driver.GetSSHUsername` (lines 294-298): always the
constant default user. -/
def GetSSHUsername (_d : Driver) : String := defaultSSHUser

/-- Embedding of `Driver.GetURL` (lines 302-313); `ipResult` is the
outcome of `d.GetIP()`. -/
def GetURL (_d : Driver) (ipResult : Except String String) : String × Option String :=
  match ipResult with
  | .error e => ("", some e)
  | .ok ip =>
    if ip = "" then ("", none)
    else ("tcp://" ++ ip ++ ":" ++ toString defaultDockerPort, none)

/-! Concrete fixtures used by the closed theorems below. -/

/-- A fully configured non-rover driver. -/
def sampleDriver : Driver :=
  { machineName := "m1",
    availabilityDomain := "AD-1",
    nodeCompartmentID := "ocid1.compartment.oc1",
    shape := "VM.Standard2.1",
    image := "Oracle-Linux-7.7",
    subnetID := "ocid1.subnet.oc1",
    isRover := false,
    sshUser := "opc",
    sshPort := 22,
    dockerPort := 2376 }

/-- Provider responses for a launch whose image resolution fails: the
single `ListImages` page is empty, so `getImageID` reports not-found,
while the compute client would accept any launch request. -/
def envNoImage : Env :=
  { adsItems := .ok ["PHX-AD-1"],
    pages := [.ok []],
    launch := fun _ => .ok "ocid1.instance.created",
    poll := fun _ => .ok "ocid1.instance.created" }

/-- Provider responses for a launch whose submission succeeds but whose
polling status read fails. -/
def envPollError : Env :=
  { adsItems := .ok ["PHX-AD-1"],
    pages := [.ok [⟨"Oracle-Linux-7.7", "ocid1.image.oc1", 100⟩]],
    launch := fun _ => .ok "ocid1.instance.created",
    poll := fun _ => .error "poll read failed" }

/-- Stop/Start oracles in which the stop action fails. -/
def actionEnvStopFails : ActionEnv :=
  { stopInstance := fun _ => some "stop failed",
    startInstance := fun _ => none }

/-- Two pages of available images, sorted by creation time descending,
holding two case-insensitive spellings of the same image name. -/
def samplePagesItems : List (List Image) :=
  [[⟨"Oracle-Linux-7.7", "ocid1.image.a", 10⟩],
   [⟨"oracle-linux-7.7", "ocid1.image.b", 5⟩]]

/-! Helper lemmas. -/

/-- The per-page scan is the first-match search over the page's items. -/
theorem findImage_eq_find? (name : String) (items : List Image) :
    findImage name items =
      (items.find? (fun i => goEqualFold i.displayName name)).map Image.id := by
  induction items with
  | nil => rfl
  | cons img rest ih =>
    cases hb : goEqualFold img.displayName name
    · rw [findImage, if_neg (by simp [hb]), List.find?_cons_of_neg _ (by simp [hb]), ih]
    · rw [findImage, if_pos (by simp [hb]), List.find?_cons_of_pos _ (by simp [hb])]
      rfl

/-- Unfolding equation of the pagination loop: a matching page wins
immediately, whatever pages follow. -/
theorem getImageIDLoop_cons_some (name : String) (items : List Image) (id : String)
    (rest : List Page) (hfi : findImage name items = some id) :
    getImageIDLoop name (Except.ok items :: rest) = (.ok id, 1) := by
  cases rest <;> simp only [getImageIDLoop, hfi]

/-- Unfolding equation of the pagination loop: a final page without a
match yields the not-found error. -/
theorem getImageIDLoop_last_none (name : String) (items : List Image)
    (hfi : findImage name items = none) :
    getImageIDLoop name [Except.ok items] = (.error (notFoundMsg name), 1) := by
  simp only [getImageIDLoop, hfi]

/-- Unfolding equation of the pagination loop: a non-final page without a
match defers to the remaining pages, adding one issued request. -/
theorem getImageIDLoop_cons_none (name : String) (items : List Image)
    (next : Page) (more : List Page) (hfi : findImage name items = none) :
    getImageIDLoop name (Except.ok items :: next :: more) =
      ((getImageIDLoop name (next :: more)).fst,
        (getImageIDLoop name (next :: more)).snd + 1) := by
  simp only [getImageIDLoop, hfi]

/-- When every page is a successful response, the pagination loop computes
the first case-insensitive match of the concatenated item stream, and a
not-found error when there is none. -/
theorem getImageIDLoop_fst_eq (name : String) :
    ∀ pagesItems : List (List Image),
      (getImageIDLoop name (pagesItems.map Except.ok)).fst =
        match pagesItems.flatten.find? (fun i => goEqualFold i.displayName name) with
        | some img => .ok img.id
        | none => .error (notFoundMsg name) := by
  intro pagesItems
  induction pagesItems with
  | nil => rfl
  | cons items rest ih =>
    cases hf : items.find? (fun i => goEqualFold i.displayName name) with
    | some img =>
      have hfi : findImage name items = some img.id := by
        rw [findImage_eq_find?, hf]; rfl
      rw [List.map_cons, getImageIDLoop_cons_some name items img.id _ hfi,
        List.flatten_cons, List.find?_append, hf]
      rfl
    | none =>
      have hfi : findImage name items = none := by
        rw [findImage_eq_find?, hf]; rfl
      cases rest with
      | nil =>
        rw [List.map_cons, List.map_nil, getImageIDLoop_last_none name items hfi,
          List.flatten_cons, List.flatten_nil, List.append_nil, hf]
      | cons nitems nrest =>
        rw [List.map_cons, List.map_cons,
          getImageIDLoop_cons_none name items _ _ hfi,
          List.flatten_cons, List.find?_append, hf]
        exact ih

/-- When every page is a successful response and no item matches, the
pagination loop visits every page (one request per page) and reports the
not-found error. -/
theorem getImageIDLoop_no_match (name : String) :
    ∀ pagesItems : List (List Image),
      (∀ img ∈ pagesItems.flatten, goEqualFold img.displayName name = false) →
      getImageIDLoop name (pagesItems.map Except.ok) =
        (.error (notFoundMsg name), pagesItems.length) := by
  intro pagesItems
  induction pagesItems with
  | nil => intro _; rfl
  | cons items rest ih =>
    intro h
    have hitems : ∀ img ∈ items, goEqualFold img.displayName name = false := by
      intro img hm
      exact h img (by rw [List.flatten_cons]; exact List.mem_append_left _ hm)
    have hfi : findImage name items = none := by
      rw [findImage_eq_find?,
        List.find?_eq_none.mpr (fun x hx => by simp [hitems x hx])]
      rfl
    cases rest with
    | nil =>
      rw [List.map_cons, List.map_nil, getImageIDLoop_last_none name items hfi]
      rfl
    | cons nitems nrest =>
      have hrest : ∀ img ∈ (nitems :: nrest).flatten,
          goEqualFold img.displayName name = false := by
        intro img hm
        exact h img (by rw [List.flatten_cons]; exact List.mem_append_right _ hm)
      have step : getImageIDLoop name (List.map Except.ok (items :: nitems :: nrest))
          = ((getImageIDLoop name (List.map Except.ok (nitems :: nrest))).fst,
             (getImageIDLoop name (List.map Except.ok (nitems :: nrest))).snd + 1) := by
        rw [List.map_cons, List.map_cons,
          getImageIDLoop_cons_none name items _ _ hfi]
      rw [step, ih hrest]
      rfl

/-- In a list that is pairwise ordered by `r`, the first element found by
a predicate is related by `r` to every other element satisfying it. -/
theorem find?_pairwise_rel {α : Type} {r : α → α → Prop} {p : α → Bool}
    {l : List α} {a : α} (hp : List.Pairwise r l) (hf : l.find? p = some a) :
    ∀ b ∈ l, p b = true → b = a ∨ r a b := by
  induction l with
  | nil => intro b hb; cases hb
  | cons x xs ih =>
    rw [List.pairwise_cons] at hp
    intro b hb hpb
    cases hx : p x with
    | true =>
      rw [List.find?_cons_of_pos _ hx, Option.some_inj] at hf
      rcases List.mem_cons.mp hb with hbx | hbt
      · exact Or.inl (hbx.trans hf)
      · exact Or.inr (hf ▸ hp.1 b hbt)
    | false =>
      rw [List.find?_cons_of_neg _ (by simp [hx])] at hf
      rcases List.mem_cons.mp hb with hbx | hbt
      · rw [hbx, hx] at hpb; cases hpb
      · exact ih hp.2 hf b hbt hpb

/-- A string has length zero exactly when it is the empty string. -/
theorem string_length_zero_iff (s : String) : s.length = 0 ↔ s = "" := by
  constructor
  · intro h
    cases s with
    | mk data =>
      cases data with
      | nil => rfl
      | cons c cs => simp [String.length] at h
  · intro h
    subst h
    rfl

/-- The `no match anywhere` fallback of the availability-domain loop: when
no listed name contains the uppercased request, the accumulator never
changes and the original request survives. -/
theorem resolveAD_no_match (req : String) (ads : List String)
    (h : ∀ n ∈ ads, goContains n (goToUpper req) = false) :
    resolveAvailabilityDomain req ads = req := by
  induction ads with
  | nil => rfl
  | cons a rest ih =>
    have ha : goContains a (goToUpper req) = false := h a (List.mem_cons_self a rest)
    have step : resolveAvailabilityDomain req (a :: rest)
        = resolveAvailabilityDomain req rest := by
      simp [resolveAvailabilityDomain, ha]
    rw [step]
    exact ih (fun n hn => h n (List.mem_cons_of_mem a hn))

/-! Theorems for the claims. -/

/-- Claim C1 (code evaluated at the failing input): for a non-rover launch
in which image resolution fails with a not-found error, `CreateInstance`
nevertheless submits the zero-value launch request to the compute client
and returns the created instance id with a nil error, because
`createReqForOCi` returns a nil error from its failure branch. -/
theorem createInstance_submits_after_failed_resolution :
    (getImageID sampleDriver.nodeCompartmentID sampleDriver.image envNoImage.pages).fst
        = .error (notFoundMsg "Oracle-Linux-7.7") ∧
    CreateInstance envNoImage sampleDriver "ssh-rsa AAA"
        = (("ocid1.instance.created", none), [{}]) :=
  ⟨rfl, rfl⟩

/-- Claim C2 (code evaluated at the failing input): when submission
succeeds but the polling status read fails, `CreateInstance` returns an
empty instance id together with a NIL error — line 127 of the source
returns `err` (nil at that point) instead of `pollError`. -/
theorem createInstance_poll_error_returns_nil_error :
    envPollError.poll "ocid1.instance.created" = .error "poll read failed" ∧
    (CreateInstance envPollError sampleDriver "ssh-rsa AAA").1 = ("", none) :=
  ⟨rfl, by decide⟩

/-- Claim C3: once the instance read succeeds, `GetState` always succeeds,
and the lifecycle mapping sends Running to Running, Stopped and Terminated
to Stopped, Stopping and Terminating to Stopping, Starting, Provisioning
and CreatingImage to Starting, and every other string to the None state. -/
theorem getState_total_lifecycle_mapping :
    (∀ inst : Instance, ∃ m : MachineState, GetState none (.ok inst) = .ok m) ∧
    mapLifecycleState instanceLifecycleStateRunning = .Running ∧
    mapLifecycleState instanceLifecycleStateStopped = .Stopped ∧
    mapLifecycleState instanceLifecycleStateTerminated = .Stopped ∧
    mapLifecycleState instanceLifecycleStateStopping = .Stopping ∧
    mapLifecycleState instanceLifecycleStateTerminating = .Stopping ∧
    mapLifecycleState instanceLifecycleStateStarting = .Starting ∧
    mapLifecycleState instanceLifecycleStateProvisioning = .Starting ∧
    mapLifecycleState instanceLifecycleStateCreatingImage = .Starting ∧
    (∀ s : String,
      s ∉ [instanceLifecycleStateRunning, instanceLifecycleStateStopped,
           instanceLifecycleStateTerminated, instanceLifecycleStateStopping,
           instanceLifecycleStateTerminating, instanceLifecycleStateStarting,
           instanceLifecycleStateProvisioning, instanceLifecycleStateCreatingImage] →
        mapLifecycleState s = .RNone) := by
  refine ⟨fun inst => ⟨mapLifecycleState inst.lifecycleState, rfl⟩,
    by decide, by decide, by decide, by decide, by decide, by decide, by decide,
    by decide, ?_⟩
  intro s hs
  simp only [List.mem_cons, List.not_mem_nil, or_false, not_or] at hs
  obtain ⟨h1, h2, h3, h4, h5, h6, h7, h8⟩ := hs
  simp [mapLifecycleState, h1, h2, h3, h4, h5, h6, h7, h8]

/-- Claim C3 witness: the unrecognized lifecycle state MOVING maps to the
None state. -/
theorem getState_total_lifecycle_mapping_witness :
    mapLifecycleState "MOVING" = MachineState.RNone :=
  getState_total_lifecycle_mapping.2.2.2.2.2.2.2.2.2 "MOVING" (by decide)

/-- Claim C4: `RestartInstance` stops first; if the stop fails the start
call is never issued and exactly the stop error is returned, and if the
stop succeeds the overall result is the start result. -/
theorem restartInstance_stop_gates_start (env : ActionEnv) (id : String) :
    (∀ e, env.stopInstance id = some e →
      RestartInstance env id = (some e, [ProviderCall.stop id]) ∧
      ∀ j, ProviderCall.start j ∉ (RestartInstance env id).2) ∧
    (env.stopInstance id = none →
      RestartInstance env id
        = (env.startInstance id, [ProviderCall.stop id, ProviderCall.start id])) := by
  constructor
  · intro e he
    constructor
    · simp [RestartInstance, he]
    · intro j
      simp [RestartInstance, he]
  · intro he
    simp [RestartInstance, he]

/-- Claim C4 witness: with a failing stop oracle, restart returns the stop
error and issues no start call. -/
theorem restartInstance_stop_gates_start_witness :
    RestartInstance actionEnvStopFails "ocid1.instance.oc1"
        = (some "stop failed", [ProviderCall.stop "ocid1.instance.oc1"]) ∧
    ∀ j, ProviderCall.start j ∉ (RestartInstance actionEnvStopFails "ocid1.instance.oc1").2 :=
  (restartInstance_stop_gates_start actionEnvStopFails "ocid1.instance.oc1").1
    "stop failed" rfl

/-- Claim C7 counterexample: both listed domains contain the uppercased
request AD-1, yet resolution returns the FIRST of them, not the last,
because after the first match the loop compares later entries against the
uppercase of the already-resolved (mixed-case) full name. -/
theorem resolveAvailabilityDomain_last_match_counterexample :
    goContains "reg-AD-1" (goToUpper "AD-1") = true ∧
    goContains "reg-AD-1b" (goToUpper "AD-1") = true ∧
    resolveAvailabilityDomain "AD-1" ["reg-AD-1", "reg-AD-1b"] = "reg-AD-1" ∧
    resolveAvailabilityDomain "AD-1" ["reg-AD-1", "reg-AD-1b"] ≠ "reg-AD-1b" := by
  refine ⟨rfl, rfl, rfl, ?_⟩
  decide

/-- Claim C7 amended: each listed domain is tested against the uppercase
of the CURRENT value of the availability-domain variable (initially the
request, thereafter the last matching entry), so the final entry wins only
if it contains the uppercase of the previously accumulated value; when no
entry ever matches, the original string is used silently with no error;
the specification's concrete examples behave as stated. -/
theorem resolveAvailabilityDomain_amended (req adName : String) (ads : List String) :
    ((∀ n ∈ ads, goContains n (goToUpper req) = false) →
      resolveAvailabilityDomain req ads = req) ∧
    resolveAvailabilityDomain req (ads ++ [adName]) =
      (if goContains adName (goToUpper (resolveAvailabilityDomain req ads)) then adName
       else resolveAvailabilityDomain req ads) ∧
    resolveAvailabilityDomain "AD-1" ["xx-region-AD-1", "xx-region-AD-2"]
        = "xx-region-AD-1" ∧
    resolveAvailabilityDomain "AD-9" ["xx-region-AD-1", "xx-region-AD-2"] = "AD-9" := by
  refine ⟨resolveAD_no_match req ads, ?_, rfl, rfl⟩
  simp [resolveAvailabilityDomain, List.foldl_append]

/-- Claim C7 witness: an unmatched request resolves to itself. -/
theorem resolveAvailabilityDomain_amended_witness :
    resolveAvailabilityDomain "AD-9" ["xx-region-AD-1", "xx-region-AD-2"] = "AD-9" :=
  (resolveAvailabilityDomain_amended "AD-9" "x" ["xx-region-AD-1", "xx-region-AD-2"]).1
    (by decide)

/-- Claim C8: with an empty compartment id or an empty image name,
`getImageID` fails immediately with the validation error and issues zero
`ListImages` requests. -/
theorem getImageID_empty_input_validation (compartmentID nodeImageName : String)
    (pages : List Page) (h : nodeImageName = "" ∨ compartmentID = "") :
    getImageID compartmentID nodeImageName pages = (.error emptyInputMsg, 0) := by
  unfold getImageID
  rw [if_pos h]

/-- Claim C8 witness: an empty compartment id is rejected before any page
is requested. -/
theorem getImageID_empty_input_validation_witness :
    getImageID "" "Oracle-Linux-7.7" [Except.ok []] = (.error emptyInputMsg, 0) :=
  getImageID_empty_input_validation "" "Oracle-Linux-7.7" [Except.ok []] (Or.inr rfl)

/-- Claim C10: `GetSSHPort` is the constant 22 and `GetSSHUsername` the
constant opc for every driver configuration, and `GetURL` builds the URL
with the constant port 2376 regardless of the configured docker port. -/
theorem driver_constant_ssh_and_url (d : Driver) (ip : String) :
    GetSSHPort d = (22, none) ∧
    GetSSHUsername d = "opc" ∧
    (ip ≠ "" → GetURL d (.ok ip) = ("tcp://" ++ ip ++ ":2376", none)) := by
  refine ⟨rfl, rfl, fun hip => ?_⟩
  have h1 : GetURL d (.ok ip)
      = (if ip = "" then ("", none)
         else ("tcp://" ++ ip ++ ":" ++ toString defaultDockerPort, none)) := rfl
  rw [h1, if_neg hip, String.append_assoc]
  rfl

/-- Claim C10 witness: a driver with non-default configured ports still
reports port 22, user opc, and a 2376 URL. -/
theorem driver_constant_ssh_and_url_witness :
    GetSSHPort { sampleDriver with sshPort := 2022, dockerPort := 9999 } = (22, none) ∧
    GetSSHUsername { sampleDriver with sshUser := "root" } = "opc" ∧
    GetURL sampleDriver (.ok "10.0.0.4") = ("tcp://10.0.0.4:2376", none) :=
  ⟨(driver_constant_ssh_and_url { sampleDriver with sshPort := 2022, dockerPort := 9999 } "x").1,
   (driver_constant_ssh_and_url { sampleDriver with sshUser := "root" } "x").2.1,
   (driver_constant_ssh_and_url sampleDriver "10.0.0.4").2.2 (by decide)⟩

/-- Claim C5: over successful pages whose concatenated item stream is
sorted by creation time descending, `getImageID` returns the id of the
first case-insensitive match encountered in page order, which has the most
recent creation timestamp among all matches. -/
theorem getImageID_most_recent_match (comp name : String)
    (pagesItems : List (List Image))
    (hcomp : comp ≠ "") (hname : name ≠ "")
    (hsorted : List.Pairwise (fun a b : Image => b.timeCreated ≤ a.timeCreated)
      pagesItems.flatten)
    (hex : ∃ img ∈ pagesItems.flatten, goEqualFold img.displayName name = true) :
    ∃ img, pagesItems.flatten.find? (fun i => goEqualFold i.displayName name) = some img ∧
      (getImageID comp name (pagesItems.map Except.ok)).fst = .ok img.id ∧
      img ∈ pagesItems.flatten ∧ goEqualFold img.displayName name = true ∧
      ∀ j ∈ pagesItems.flatten, goEqualFold j.displayName name = true →
        j.timeCreated ≤ img.timeCreated := by
  have hsome : (pagesItems.flatten.find? (fun i => goEqualFold i.displayName name)).isSome :=
    List.find?_isSome.mpr hex
  obtain ⟨img, himg⟩ := Option.isSome_iff_exists.mp hsome
  have hpimg : (fun i => goEqualFold i.displayName name) img = true :=
    @List.find?_some Image (fun i => goEqualFold i.displayName name) img
      pagesItems.flatten himg
  refine ⟨img, himg, ?_, List.mem_of_find?_eq_some himg, hpimg, ?_⟩
  · unfold getImageID
    rw [if_neg (by simp [hname, hcomp]), getImageIDLoop_fst_eq name pagesItems, himg]
  · intro j hj hpj
    rcases find?_pairwise_rel hsorted himg j hj hpj with h | h
    · exact h ▸ le_refl _
    · exact h

/-- Claim C5 witness: a mixed-case request resolves to the newest of the
two case-insensitive matches, the one found first in page order. -/
theorem getImageID_most_recent_match_witness :
    ∃ img, samplePagesItems.flatten.find?
        (fun i => goEqualFold i.displayName "ORACLE-LINUX-7.7") = some img ∧
      (getImageID "ocid1.compartment.oc1" "ORACLE-LINUX-7.7"
          (samplePagesItems.map Except.ok)).fst = .ok img.id ∧
      img ∈ samplePagesItems.flatten ∧
      goEqualFold img.displayName "ORACLE-LINUX-7.7" = true ∧
      ∀ j ∈ samplePagesItems.flatten,
        goEqualFold j.displayName "ORACLE-LINUX-7.7" = true →
        j.timeCreated ≤ img.timeCreated :=
  getImageID_most_recent_match "ocid1.compartment.oc1" "ORACLE-LINUX-7.7"
    samplePagesItems (by decide) (by decide) (by decide) (by decide)

/-- Claim C6: when no page contains a case-insensitive match, `getImageID`
visits every page (stopping at the one without a next-page token), issues
exactly one request per page, and fails with the not-found error whose
message ends in the requested image name; it never succeeds. -/
theorem getImageID_not_found (comp name : String) (pagesItems : List (List Image))
    (hcomp : comp ≠ "") (hname : name ≠ "")
    (hnone : ∀ img ∈ pagesItems.flatten, goEqualFold img.displayName name = false) :
    getImageID comp name (pagesItems.map Except.ok)
        = (.error (notFoundMsg name), pagesItems.length) ∧
    ∃ pre, notFoundMsg name = pre ++ name := by
  refine ⟨?_, ⟨"could not retrieve image id for an image named ", rfl⟩⟩
  unfold getImageID
  rw [if_neg (by simp [hname, hcomp])]
  exact getImageIDLoop_no_match name pagesItems hnone

/-- Claim C6 witness: a name absent from both pages yields the not-found
error after exactly two page requests. -/
theorem getImageID_not_found_witness :
    getImageID "ocid1.compartment.oc1" "CentOS-8" (samplePagesItems.map Except.ok)
        = (.error (notFoundMsg "CentOS-8"), samplePagesItems.length) ∧
    ∃ pre, notFoundMsg "CentOS-8" = pre ++ "CentOS-8" :=
  getImageID_not_found "ocid1.compartment.oc1" "CentOS-8" samplePagesItems
    (by decide) (by decide) (by decide)

/-- Claim C9: `PreCreateCheck` returns success immediately in rover mode;
its result never depends on the configured image flag; and outside rover
mode (with a working client) it succeeds exactly when the BUILT-IN default
image name resolves in the node compartment to a non-empty image id. -/
theorem preCreateCheck_rover_and_default_image (d : Driver) (initErr : Option String)
    (pages : List Page) (img : String) :
    (d.isRover = true → PreCreateCheck d initErr pages = none) ∧
    PreCreateCheck { d with image := img } initErr pages = PreCreateCheck d initErr pages ∧
    (d.isRover = false → initErr = none →
      (PreCreateCheck d initErr pages = none ↔
        ∃ id, (getImageID d.nodeCompartmentID "Oracle-Linux-7.7" pages).fst = .ok id ∧
          id ≠ "")) := by
  refine ⟨fun hr => by simp [PreCreateCheck, hr], by simp [PreCreateCheck],
    fun hr hi => ?_⟩
  subst hi
  simp only [PreCreateCheck, hr, Bool.false_eq_true, if_false, defaultImage]
  cases hg : (getImageID d.nodeCompartmentID "Oracle-Linux-7.7" pages).fst with
  | error e => simp [hg]
  | ok image =>
    by_cases hlen : image.length = 0
    · have himg : image = "" := (string_length_zero_iff image).mp hlen
      subst himg
      simp [hg]
    · have hne : image ≠ "" := fun h => hlen ((string_length_zero_iff image).mpr h)
      simp only [hg, if_neg hlen]
      constructor
      · intro _
        exact ⟨image, rfl, hne⟩
      · intro _
        trivial

/-- Claim C9 witness: a rover-mode driver passes the pre-create check
without any image lookup, even when client construction would fail. -/
theorem preCreateCheck_rover_and_default_image_witness :
    PreCreateCheck { sampleDriver with isRover := true } (some "init failed") [] = none :=
  (preCreateCheck_rover_and_default_image { sampleDriver with isRover := true }
    (some "init failed") [] "ignored").1 rfl

end OCIDriver
